import Mathlib

/-!
Shallow embedding of the cinetech conversation pipeline.

The definitions below are transcribed from the Python sources of the
repository:

* `src/cinetech/domain/memory/conversation_context.py` (class
  `ConversationContext`),
* `src/cinetech/application/chat_service/chat_service.py` (class
  `ChatService`),
* `src/cinetech/domain/tools/tmdb_tools.py` (favourites persistence and the
  `DeleteFavouriteTool` / `AddFavouriteTool` tools).

External collaborators (the ChromaDB retrieval backend, the LLM agent, the
filesystem) are modelled as explicit oracle parameters describing the outcome
of each call; Python exceptions are modelled with `Except`, and mutation of a
`ConversationContext` object is modelled by returning the post-state next to
the outcome. Machine-level details (logging) are dropped; everything that
decides control flow is kept.
-/

namespace Cinetech

/-- Transcription of the Python `str.strip()` used by the pipeline: removes
whitespace characters from both ends of a string. -/
def pyStrip (s : String) : String :=
  String.mk (((s.data.dropWhile Char.isWhitespace).reverse.dropWhile Char.isWhitespace).reverse)

/-- Transcription of the Python slice `l[i:]` for an integer start index `i`:
a negative index counts from the end of the list (clamped at the front), and a
non-negative index drops that many elements from the front.  In particular
`l[-0:]` is the whole list, the gotcha exercised by `messages[-n:]` at
`n = 0`. -/
def pySliceFrom (i : Int) (l : List α) : List α :=
  if i < 0 then l.drop (l.length - (-i).toNat) else l.drop i.toNat

/-- Last `k` elements of a list (the whole list when `k ≥ length`).  Used only
in theorem statements, as the mathematical description of FIFO truncation. -/
def lastN (k : Nat) (l : List α) : List α :=
  l.drop (l.length - k)

/-- One history entry, the dict `{"role": role, "content": content}` of
`conversation_context.py`. -/
structure Message where
  role : String
  content : String
deriving DecidableEq

/-- Metadata dict of one entry of `ConversationContext.movies`.  Only the keys
read by `get_favorite_movies` are modelled: `favorite` (must be literally
`True` to count, hence `Option Bool`), `title` (absent key modelled as
`none`), and `favorite_movies` (absent list modelled as `none`). -/
structure MovieMeta where
  favorite : Option Bool
  title : Option String
  favorite_movies : Option (List String)
deriving DecidableEq

/-- State of a `ConversationContext` object (`conversation_context.py`,
`__init__`): the bounded message history, the entities map (an
insertion-ordered association list, as Python dicts preserve insertion
order), and the retrieval audit log. -/
structure ConversationContext where
  max_history : Int
  messages : List Message
  movies : List (String × MovieMeta)
  chromadb_results : List (String × String)
deriving DecidableEq

/-- Transcription of `ConversationContext.get_favorite_movies`
(`conversation_context.py`, lines 19-38): tier 1 joins the titles of entries
flagged `favorite is True` (truthy titles only, with a fallback message when
the join is empty); tier 2 flattens the `favorite_movies` list fields; tier 3
is the sentinel message. -/
def get_favorite_movies (ctx : ConversationContext) : String :=
  let favorites := (ctx.movies.map Prod.snd).filter (fun m => m.favorite == some true)
  if favorites.isEmpty then
    let fav_list := (ctx.movies.map Prod.snd).foldl (fun acc m => acc ++ m.favorite_movies.getD []) []
    if fav_list.isEmpty then
      "No favorite movies stored."
    else
      String.intercalate ", " fav_list
  else
    let joined := String.intercalate ", "
      (favorites.filterMap (fun m =>
        match m.title with
        | some t => if t == "" then none else some t
        | none => none))
    if joined == "" then "No favorite movies stored." else joined

/-- Tier-1 collection of `get_favorite_movies`: metadata entries whose
`favorite` key is literally `True`, in insertion order.  Statement-side name
for the list computed inside the source function. -/
def flagged_favorites (ctx : ConversationContext) : List MovieMeta :=
  (ctx.movies.map Prod.snd).filter (fun m => m.favorite == some true)

/-- Truthy titles of the tier-1 entries, in order (absent and empty titles
filtered out). -/
def flagged_titles (ctx : ConversationContext) : List String :=
  (flagged_favorites ctx).filterMap (fun m =>
    match m.title with
    | some t => if t == "" then none else some t
    | none => none)

/-- Tier-2 collection: concatenation of all `favorite_movies` list fields
across the entries, in insertion order. -/
def listed_favorites (ctx : ConversationContext) : List String :=
  (ctx.movies.map Prod.snd).flatMap (fun m => m.favorite_movies.getD [])

/-- Context with every `favorite_movies` list field removed, used to state
that tier 1 ignores those fields entirely. -/
def scrub_favorite_lists (ctx : ConversationContext) : ConversationContext :=
  { ctx with movies := ctx.movies.map (fun p => (p.1, MovieMeta.mk p.2.favorite p.2.title none)) }

/-- Role check of `ConversationContext._add_message`: the Python membership
test `role in {"user", "assistant", "system"}`. -/
def valid_role (role : String) : Bool :=
  role == "user" || role == "assistant" || role == "system"

/-- Text of the `ValueError` raised by `_add_message` on a bad role. -/
def role_error : String :=
  "Role must be \x27user\x27, \x27assistant\x27 or \x27system\x27"

/-- Replace the message history of a context, keeping every other field.
Notation helper for the state updates performed by `_add_message`. -/
def with_messages (ctx : ConversationContext) (l : List Message) : ConversationContext :=
  { ctx with messages := l }

/-- Trimming step of `_add_message` (`conversation_context.py`, lines 66-68):
`if len(self.messages) > self.max_history: self.messages =
self.messages[-self.max_history:]`. -/
def trim_history (maxH : Int) (l : List Message) : List Message :=
  if (l.length : Int) > maxH then pySliceFrom (-maxH) l else l

/-- Transcription of `ConversationContext._add_message`
(`conversation_context.py`, lines 52-69).  An invalid role raises `ValueError`
before any mutation; otherwise the message is appended and the history is
trimmed with the Python slice `messages[-max_history:]` whenever its length
exceeds `max_history`.  The pair returns the outcome together with the
post-state of the object. -/
def _add_message (ctx : ConversationContext) (role content : String) :
    Except String Unit × ConversationContext :=
  if valid_role role then
    (Except.ok (),
     with_messages ctx (trim_history ctx.max_history (ctx.messages ++ [Message.mk role content])))
  else
    (Except.error role_error, ctx)

/-- Transcription of `ConversationContext.add_user_message`. -/
def add_user_message (ctx : ConversationContext) (content : String) :
    Except String Unit × ConversationContext :=
  _add_message ctx "user" content

/-- Transcription of `ConversationContext.add_assistant_message`. -/
def add_assistant_message (ctx : ConversationContext) (content : String) :
    Except String Unit × ConversationContext :=
  _add_message ctx "assistant" content

/-- Transcription of `ConversationContext.get_recent`
(`conversation_context.py`, lines 98-110): all messages when `n` is `None` or
`n ≥ len(messages)`, otherwise the slice `messages[-n:]`. -/
def get_recent (ctx : ConversationContext) (n : Option Int) : List Message :=
  match n with
  | none => ctx.messages
  | some k =>
    if k ≥ (ctx.messages.length : Int) then ctx.messages
    else pySliceFrom (-k) ctx.messages

/-- Sequence of appends through `_add_message`, as used to state the bounded
history property: each element of `ms` is appended in turn, each append
mutating the context (an invalid role leaves the state unchanged, as in the
source). -/
def append_messages (ctx : ConversationContext) (ms : List Message) : ConversationContext :=
  ms.foldl (fun c m => (_add_message c m.role m.content).2) ctx

/-- Value of the `content` key or attribute of an agent message, when the
key or attribute is present: a plain text payload, the Python `None`, or a
non-text value (for example a LangChain list of content blocks), which has
no `strip` method. -/
inductive PyContent where
  | text (s : String)
  | pynone
  | nonText
deriving DecidableEq

/-- One element of the `messages` sequence of a structured agent response:
its `content` field (`none` when the key or attribute is missing altogether,
otherwise the present value, which need not be text) and its Python string
form `str(message)`. -/
structure AgentMsg where
  content : Option PyContent
  strForm : String
deriving DecidableEq

/-- Shape of the value returned by `agent.invoke` in
`ChatService._chat_with_agent`: a plain string, a dict carrying a `messages`
key (with the string form of the whole response), or any other value reduced
to its string form. -/
inductive AgentResponse where
  | plain (s : String)
  | withMessages (msgs : List AgentMsg) (strForm : String)
  | other (strForm : String)
deriving DecidableEq

/-- Transcription of the extraction logic of `ChatService._chat_with_agent`
(`chat_service.py`, lines 109-126), as a function of the agent response
value.  `last_msg = last_msg_obj.get("content", str(last_msg_obj))` is
modelled with `Option.getD`: an absent content key or attribute falls back
to the string form of the message.  A content field holding `None` leaves
`last_msg` equal to `None`, so the `last_msg = str(response)` branch at
lines 120-121 fires; a content field holding a non-text value reaches
`last_msg.strip()` at line 122, which raises `AttributeError` — re-raised by
the generic handler at lines 130-132 — modelled as the error outcome.  An
empty `messages` sequence also falls back to `str(response)`.  Plain string
responses are stripped; any other response yields its string form,
unstripped. -/
def extract_agent_reply (r : AgentResponse) : Except Unit String :=
  match r with
  | .withMessages msgs strForm =>
    match msgs.getLast? with
    | some m =>
      match m.content.getD (PyContent.text m.strForm) with
      | PyContent.text t => Except.ok (pyStrip t)
      | PyContent.pynone => Except.ok (pyStrip strForm)
      | PyContent.nonText => Except.error ()
    | none => Except.ok (pyStrip strForm)
  | .plain s => Except.ok (pyStrip s)
  | .other s => Except.ok s

/-- Modelled from the spec (section 4.3, step 4, extraction rule), amended at
the two divergent content shapes: a plain string response is used as-is,
trimmed; a structured result with a non-empty `messages` sequence takes the
last message content field trimmed when it is a text payload, the string
form of the whole message trimmed when the field is absent, and the string
form of the entire response trimmed when the field is present but `None`; a
content field that is present but not a text payload makes the extraction
raise, producing no reply text; a structured result yielding no message
falls back to the string form of the entire response, trimmed; anything else
yields its string form.  Written independently of `extract_agent_reply` to
compare the two. -/
def extract_agent_reply_spec (r : AgentResponse) : Except Unit String :=
  match r with
  | .plain s => Except.ok (pyStrip s)
  | .withMessages msgs strForm =>
    match msgs.getLast? with
    | some m =>
      match m.content with
      | some (PyContent.text c) => Except.ok (pyStrip c)
      | some PyContent.pynone => Except.ok (pyStrip strForm)
      | some PyContent.nonText => Except.error ()
      | none => Except.ok (pyStrip m.strForm)
    | none => Except.ok (pyStrip strForm)
  | .other s => Except.ok s

/-- Argument actually passed to `generate_reply`: the Python caller may pass
a value that is not a string at all (`isinstance(user_message, str)` check). -/
inductive PyArg where
  | str (s : String)
  | nonStr
deriving DecidableEq

/-- Fixed fallback string of `ChatService.generate_reply` (lines 78 and 84). -/
def fallback_reply : String :=
  "Sorry, I am unable to generate a reply at the moment. Please try again later."

/-- Fallback of the `chromadb_test` branch (line 70). -/
def chromadb_fallback : String :=
  "Sorry, ChromaDB search is currently unavailable."

/-- Error message of the input validation of `generate_reply` (line 62). -/
def invalid_input_error : String :=
  "user_message must be a non-empty string"

/-- Reply computed by the `chromadb_test=True` branch of `generate_reply`
(`chat_service.py`, lines 66-71). -/
def chromadb_reply (search_result : Except Unit String) : String :=
  match search_result with
  | Except.ok r => r
  | Except.error _ => chromadb_fallback

/-- Reply computed by the retrieval stage plus the agent stage of
`generate_reply` (`chat_service.py`, lines 72-85).  Faithful detail: when the
retrieval call raises, the local `llama_reply` stays unbound, so the later
argument expression `llama_reply` in
`self._build_prompt_vars(user_message, llama_reply)` raises
`UnboundLocalError` inside the agent-stage `try`, which is caught and leaves
the reply equal to the fallback string before the agent is ever consulted —
hence the error branch below does not consult `agent_outcome`.  An exception
raised by the extraction itself (`AttributeError` on a non-text content
field, re-raised by `_chat_with_agent`) lands in the same agent-stage
`except` and also yields the fallback string. -/
def pipeline_reply (search_result : Except Unit String)
    (agent_outcome : Except Unit AgentResponse) : String :=
  match search_result with
  | Except.error _ => fallback_reply
  | Except.ok _ =>
    match agent_outcome with
    | Except.ok resp =>
      match extract_agent_reply resp with
      | Except.ok t => t
      | Except.error _ => fallback_reply
    | Except.error _ => fallback_reply

/-- Exception propagation of one append step inside `generate_reply`: the
source does not catch exceptions of `add_user_message` and
`add_assistant_message`, so a raised error propagates to the caller with the
state reached so far, and a normal return continues with the mutated
context. -/
def propagate (step : Except String Unit × ConversationContext)
    (k : ConversationContext → Except String String × ConversationContext) :
    Except String String × ConversationContext :=
  match step with
  | (Except.error e, c) => (Except.error e, c)
  | (Except.ok _, c) => k c

/-- Transcription of `ChatService.generate_reply` (`chat_service.py`, lines
45-87).  `search_result` is the outcome of `search_movies(user_message,
top_k=5)` (its value is the payload later interpolated into the prompt);
`agent_outcome` is the combined outcome of `start_model()` plus
`agent.invoke(...)` in `_chat_with_agent`.  The reply of the middle stages is
factored out into `chromadb_reply` and `pipeline_reply` above; append steps
go through `propagate` (their `ValueError` cannot fire, since the roles are
the literals `user` and `assistant`). -/
def generate_reply (ctx : ConversationContext) (user_message : PyArg)
    (chromadb_test : Bool) (search_result : Except Unit String)
    (agent_outcome : Except Unit AgentResponse) :
    Except String String × ConversationContext :=
  match user_message with
  | .nonStr => (Except.error invalid_input_error, ctx)
  | .str s =>
    if pyStrip s == "" then (Except.error invalid_input_error, ctx)
    else
      propagate (add_user_message ctx s) (fun ctx1 =>
        if chromadb_test then
          propagate (add_assistant_message ctx1 (chromadb_reply search_result)) (fun ctx2 =>
            (Except.ok (chromadb_reply search_result), ctx2))
        else
          propagate (add_assistant_message ctx1 (pipeline_reply search_result agent_outcome))
            (fun ctx2 => (Except.ok (pipeline_reply search_result agent_outcome), ctx2)))

/-- State of the persisted favourites file `favourite.json` as seen by
`tmdb_tools.py`: missing, present but not valid JSON, or a stored list of
ids. -/
inductive FavFile where
  | absent
  | corrupt
  | stored (ids : List Int)
deriving DecidableEq

/-- Transcription of `save_favourites` (`tmdb_tools.py`, lines 17-47): an
absent file yields an empty starting list, and a parse failure is caught by
the inner `try` and also yields an empty list; the new ids are appended with
duplicate suppression and the result is written back. -/
def save_favourites (file : FavFile) (favs : List Int) : FavFile :=
  let existing_favs : List Int :=
    match file with
    | .stored ids => ids
    | .absent => []
    | .corrupt => []
  FavFile.stored (favs.foldl (fun acc fav => if fav ∈ acc then acc else acc ++ [fav]) existing_favs)

/-- Python truthiness test `not movie_id` applied to the result of
`search_movie_id`: `None` and the integer `0` are both falsy. -/
def falsy_id (o : Option Int) : Bool :=
  match o with
  | none => true
  | some k => k == 0

/-- Transcription of `AddFavouriteTool._run` (`tmdb_tools.py`, lines 86-101).
`resolved` is the outcome of `search_movie_id(movie_name)`. -/
def add_favourite_run (file : FavFile) (resolved : Option Int) (movie_name : String) :
    String × FavFile :=
  if falsy_id resolved then
    ("Movie \x27" ++ movie_name ++ "\x27 not found. Cannot add to favourites.", file)
  else
    let movie_id := resolved.getD 0
    ("Added " ++ toString movie_id ++ " to favourites.", save_favourites file [movie_id])

/-- Transcription of `DeleteFavouriteTool._run` (`tmdb_tools.py`, lines
117-148).  `json_error` is the text of the exception raised by `json.load` on
an unparsable file: on that path the outer `except` catches the error and
returns it as an error message (there is no inner recovery `try` here, unlike
`save_favourites`). -/
def delete_favourite_run (file : FavFile) (resolved : Option Int)
    (movie_name : String) (json_error : String) : String × FavFile :=
  if falsy_id resolved then
    ("Movie \x27" ++ movie_name ++ "\x27 not found. Cannot delete from favourites.", file)
  else
    let movie_id := resolved.getD 0
    match file with
    | .corrupt =>
      ("Error deleting favourite " ++ toString movie_id ++ ": " ++ json_error, file)
    | .absent =>
      ("Movie ID " ++ toString movie_id ++ " not found in favourites.", file)
    | .stored fav_ids =>
      if movie_id ∈ fav_ids then
        ("Deleted " ++ toString movie_id ++ " from favourites.", FavFile.stored (fav_ids.erase movie_id))
      else
        ("Movie ID " ++ toString movie_id ++ " not found in favourites.", file)

/-! Helper lemmas about the embedding.  These are shared infrastructure for
the claim theorems below. -/

lemma length_lastN (k : Nat) (l : List α) : (lastN k l).length = min k l.length := by
  simp only [lastN, List.length_drop]
  omega

lemma lastN_of_length_le (k : Nat) (l : List α) (h : l.length ≤ k) : lastN k l = l := by
  simp only [lastN, Nat.sub_eq_zero_of_le h, List.drop_zero]

lemma getLast?_lastN_concat (k : Nat) (hk : 1 ≤ k) (l : List α) (x : α) :
    (lastN k (l ++ [x])).getLast? = some x := by
  have hle : (l ++ [x]).length - k ≤ l.length := by
    simp only [List.length_append, List.length_cons, List.length_nil]
    omega
  rw [lastN, List.drop_append_of_le_length hle, List.getLast?_concat]

lemma lastN_lastN_append (k : Nat) (p rest : List α) :
    lastN k (lastN k p ++ rest) = lastN k (p ++ rest) := by
  simp only [lastN]
  rw [← List.drop_append_of_le_length (Nat.sub_le p.length k), List.drop_drop]
  congr 1
  simp only [List.length_append, List.length_drop]
  omega

lemma propagate_ok (u : Unit) (c : ConversationContext)
    (k : ConversationContext → Except String String × ConversationContext) :
    propagate (Except.ok u, c) k = k c := rfl

lemma propagate_error (e : String) (c : ConversationContext)
    (k : ConversationContext → Except String String × ConversationContext) :
    propagate (Except.error e, c) k = (Except.error e, c) := rfl

lemma trim_history_eq_lastN (maxH : Int) (hmax : 1 ≤ maxH) (l : List Message) :
    trim_history maxH l = lastN maxH.toNat l := by
  have hneg : -maxH < 0 := by omega
  rw [trim_history]
  by_cases hgt : (l.length : Int) > maxH
  · rw [if_pos hgt]
    simp only [pySliceFrom, if_pos hneg, neg_neg, lastN]
  · rw [if_neg hgt]
    have h0 : lastN maxH.toNat l = l := by
      apply lastN_of_length_le
      omega
    rw [h0]

lemma add_message_valid_eq (ctx : ConversationContext) (role content : String)
    (hrole : valid_role role = true) (hmax : 1 ≤ ctx.max_history) :
    _add_message ctx role content =
      (Except.ok (),
       with_messages ctx (lastN ctx.max_history.toNat (ctx.messages ++ [Message.mk role content]))) := by
  rw [_add_message, if_pos hrole, trim_history_eq_lastN ctx.max_history hmax]

lemma add_message_frame (ctx : ConversationContext) (role content : String) :
    (_add_message ctx role content).2.movies = ctx.movies ∧
    (_add_message ctx role content).2.chromadb_results = ctx.chromadb_results ∧
    (_add_message ctx role content).2.max_history = ctx.max_history := by
  rw [_add_message]
  by_cases h : valid_role role = true
  · rw [if_pos h]
    exact ⟨rfl, rfl, rfl⟩
  · rw [if_neg h]
    exact ⟨rfl, rfl, rfl⟩

lemma generate_reply_valid_eq (ctx : ConversationContext) (s : String)
    (retr : Except Unit String) (agent : Except Unit AgentResponse)
    (hs : ¬ pyStrip s = "") (hmax : 1 ≤ ctx.max_history) :
    generate_reply ctx (PyArg.str s) false retr agent =
      (Except.ok (pipeline_reply retr agent),
       with_messages ctx
         (lastN ctx.max_history.toNat
           (lastN ctx.max_history.toNat (ctx.messages ++ [Message.mk "user" s]) ++
             [Message.mk "assistant" (pipeline_reply retr agent)]))) := by
  have hcond : ¬ ((pyStrip s == "") = true) := by
    simp only [beq_iff_eq]
    exact hs
  have h1 : add_user_message ctx s =
      (Except.ok (),
       with_messages ctx (lastN ctx.max_history.toNat (ctx.messages ++ [Message.mk "user" s]))) :=
    add_message_valid_eq ctx "user" s (by decide) hmax
  have h2 : add_assistant_message
      (with_messages ctx (lastN ctx.max_history.toNat (ctx.messages ++ [Message.mk "user" s])))
      (pipeline_reply retr agent) =
      (Except.ok (),
       with_messages ctx
         (lastN ctx.max_history.toNat
           (lastN ctx.max_history.toNat (ctx.messages ++ [Message.mk "user" s]) ++
             [Message.mk "assistant" (pipeline_reply retr agent)]))) :=
    add_message_valid_eq _ "assistant" _ (by decide) hmax
  rw [generate_reply, if_neg hcond, h1]
  simp only [propagate_ok]
  rw [if_neg Bool.false_ne_true, h2]
  simp only [propagate_ok]

lemma append_messages_eq (ms : List Message) (ctx : ConversationContext)
    (hmax : 1 ≤ ctx.max_history)
    (hroles : ∀ m ∈ ms, valid_role m.role = true)
    (hlen : ctx.messages.length ≤ ctx.max_history.toNat) :
    append_messages ctx ms =
      with_messages ctx (lastN ctx.max_history.toNat (ctx.messages ++ ms)) := by
  induction ms generalizing ctx with
  | nil =>
    rw [append_messages, List.foldl_nil, List.append_nil, lastN_of_length_le _ _ hlen]
    rfl
  | cons m rest ih =>
    have hm : valid_role m.role = true := hroles m (List.mem_cons_self m rest)
    have hstep : _add_message ctx m.role m.content =
        (Except.ok (),
         with_messages ctx (lastN ctx.max_history.toNat (ctx.messages ++ [Message.mk m.role m.content]))) :=
      add_message_valid_eq ctx m.role m.content hm hmax
    have hmsg : Message.mk m.role m.content = m := rfl
    rw [append_messages, List.foldl_cons]
    have hrest := ih (with_messages ctx (lastN ctx.max_history.toNat (ctx.messages ++ [m])))
      hmax (fun x hx => hroles x (List.mem_cons_of_mem m hx))
      (by rw [with_messages]
          simp only [length_lastN]
          omega)
    rw [hmsg] at hstep
    rw [hstep]
    rw [append_messages] at hrest
    simp only [with_messages] at hrest ⊢
    rw [hrest]
    rw [lastN_lastN_append]
    simp only [List.append_assoc, List.singleton_append]

lemma string_data_append (a b : String) : (a ++ b).data = a.data ++ b.data := by
  cases a
  cases b
  rfl

lemma string_eq_empty_iff_data (s : String) : s = "" ↔ s.data = [] := by
  constructor
  · intro h
    rw [h]
  · intro h
    cases s with
    | mk d =>
      cases h
      rfl

lemma intercalate_go_data_ne_nil (sep : String) (as : List String) (acc : String)
    (h : acc.data ≠ []) : (String.intercalate.go acc sep as).data ≠ [] := by
  induction as generalizing acc with
  | nil =>
    rw [String.intercalate.go]
    exact h
  | cons a as ih =>
    rw [String.intercalate.go]
    apply ih
    simp only [string_data_append, ne_eq, List.append_eq_nil]
    intro hx
    exact h hx.1.1

lemma intercalate_cons_ne_empty (sep t : String) (ts : List String) (ht : t ≠ "") :
    String.intercalate sep (t :: ts) ≠ "" := by
  rw [String.intercalate]
  intro hc
  have hd : (String.intercalate.go t sep ts).data ≠ [] := by
    apply intercalate_go_data_ne_nil
    intro hx
    exact ht ((string_eq_empty_iff_data t).mpr hx)
  exact hd ((string_eq_empty_iff_data _).mp hc)

lemma foldl_append_eq_flatMap (f : α → List β) (l : List α) (acc : List β) :
    l.foldl (fun a x => a ++ f x) acc = acc ++ l.flatMap f := by
  induction l generalizing acc with
  | nil => simp
  | cons x xs ih =>
    rw [List.foldl_cons, ih, List.flatMap_cons, List.append_assoc]

lemma propagate_preserves (step : Except String Unit × ConversationContext)
    (k : ConversationContext → Except String String × ConversationContext)
    (P : ConversationContext → Prop)
    (hstep : P step.2) (hk : ∀ c, P c → P (k c).2) :
    P (propagate step k).2 := by
  rcases step with ⟨o, c⟩
  cases o with
  | error e => exact hstep
  | ok u => exact hk c hstep

lemma mem_flagged_titles_ne_empty (ctx : ConversationContext) (t : String)
    (h : t ∈ flagged_titles ctx) : t ≠ "" := by
  rw [flagged_titles, List.mem_filterMap] at h
  obtain ⟨m, _, hm⟩ := h
  cases htitle : m.title with
  | none =>
    simp only [htitle] at hm
    exact Option.noConfusion hm
  | some t0 =>
    simp only [htitle] at hm
    by_cases h0 : (t0 == "") = true
    · rw [if_pos h0] at hm
      simp at hm
    · rw [if_neg h0] at hm
      injection hm with heq
      rw [← heq]
      simpa using h0

lemma get_favorite_movies_tier1 (ctx : ConversationContext)
    (h1 : flagged_favorites ctx ≠ []) :
    get_favorite_movies ctx =
      if flagged_titles ctx = [] then "No favorite movies stored."
      else String.intercalate ", " (flagged_titles ctx) := by
  have h1e : ¬ (((ctx.movies.map Prod.snd).filter
      (fun m => m.favorite == some true)).isEmpty = true) := by
    rw [List.isEmpty_eq_true]
    rwa [flagged_favorites] at h1
  simp only [get_favorite_movies]
  rw [if_neg h1e]
  by_cases h2 : flagged_titles ctx = []
  · rw [if_pos h2]
    have h2e : ((ctx.movies.map Prod.snd).filter
        (fun m => m.favorite == some true)).filterMap
          (fun m => match m.title with
            | some t => if t == "" then none else some t
            | none => none) = [] := by
      rwa [flagged_titles, flagged_favorites] at h2
    rw [h2e]
    rfl
  · rw [if_neg h2]
    obtain ⟨t, ts, hts⟩ := List.exists_cons_of_ne_nil h2
    have htne : t ≠ "" :=
      mem_flagged_titles_ne_empty ctx t (by rw [hts]; exact List.mem_cons_self t ts)
    have hjoin : String.intercalate ", " (flagged_titles ctx) ≠ "" := by
      rw [hts]
      exact intercalate_cons_ne_empty ", " t ts htne
    rw [flagged_titles, flagged_favorites] at hjoin
    rw [if_neg (fun hc => hjoin (beq_iff_eq.mp hc))]
    rw [flagged_titles, flagged_favorites]

lemma get_favorite_movies_tier2 (ctx : ConversationContext)
    (h1 : flagged_favorites ctx = []) :
    get_favorite_movies ctx =
      if listed_favorites ctx = [] then "No favorite movies stored."
      else String.intercalate ", " (listed_favorites ctx) := by
  have h1e : ((ctx.movies.map Prod.snd).filter
      (fun m => m.favorite == some true)).isEmpty = true := by
    rw [List.isEmpty_eq_true]
    rwa [flagged_favorites] at h1
  simp only [get_favorite_movies]
  rw [if_pos h1e]
  have hfl : (ctx.movies.map Prod.snd).foldl
      (fun acc m => acc ++ m.favorite_movies.getD []) [] = listed_favorites ctx := by
    rw [foldl_append_eq_flatMap, List.nil_append, listed_favorites]
  rw [hfl]
  by_cases h2 : listed_favorites ctx = []
  · rw [if_pos ((List.isEmpty_eq_true).mpr h2), if_pos h2]
  · rw [if_neg (fun hc => h2 ((List.isEmpty_eq_true).mp hc)), if_neg h2]

lemma flagged_favorites_scrub (ctx : ConversationContext) :
    flagged_favorites (scrub_favorite_lists ctx) =
      (flagged_favorites ctx).map (fun m => MovieMeta.mk m.favorite m.title none) := by
  rw [flagged_favorites, flagged_favorites, scrub_favorite_lists]
  simp only [List.map_map]
  rw [List.filter_map, List.filter_map]
  simp only [List.map_map]
  rfl

lemma flagged_titles_scrub (ctx : ConversationContext) :
    flagged_titles (scrub_favorite_lists ctx) = flagged_titles ctx := by
  rw [flagged_titles, flagged_titles, flagged_favorites_scrub, List.filterMap_map]
  rfl

/-! Claim theorems. -/

/-- C1, counterexample: with the default-style context at capacity
`max_history = 1` and an empty history, a successful `generate_reply` call
leaves the history at length 1, not `0 + 2`: the FIFO trim of `_add_message`
evicts the user message, so the length does not grow by exactly 2. -/
theorem generate_reply_turn_invariant_cex :
    (generate_reply (ConversationContext.mk 1 [] [] []) (PyArg.str "hi") false
        (Except.ok "m") (Except.ok (AgentResponse.plain "ok"))).2.messages.length = 1 ∧
    (1 : Nat) ≠ 0 + 2 :=
  ⟨rfl, by decide⟩

/-- C1 (amended): for a capacity of at least 1 and a user message that is
non-empty after stripping, `generate_reply` returns normally, appends the
user message and then the assistant reply, and the history length afterwards
is `min (before + 2) max_history` — exactly `before + 2` whenever
`before + 2 ≤ max_history`, in which case the history is exactly the old
history extended with the user message and then the assistant reply; the
assistant reply is always the last retained message. -/
theorem generate_reply_turn_invariant (ctx : ConversationContext) (s : String)
    (retr : Except Unit String) (agent : Except Unit AgentResponse)
    (hmax : 1 ≤ ctx.max_history) (hs : pyStrip s ≠ "") :
    ∃ reply ctx2,
      generate_reply ctx (PyArg.str s) false retr agent = (Except.ok reply, ctx2) ∧
      (ctx2.messages.length : Int) = min ((ctx.messages.length : Int) + 2) ctx.max_history ∧
      ctx2.messages.getLast? = some (Message.mk "assistant" reply) ∧
      ((ctx.messages.length : Int) + 2 ≤ ctx.max_history →
        ctx2.messages = ctx.messages ++ [Message.mk "user" s, Message.mk "assistant" reply]) := by
  refine ⟨pipeline_reply retr agent, _,
    generate_reply_valid_eq ctx s retr agent hs hmax, ?_, ?_, ?_⟩
  · simp only [with_messages, length_lastN, List.length_append, List.length_cons,
      List.length_nil]
    push_cast
    omega
  · exact getLast?_lastN_concat _ (by omega) _ _
  · intro hle
    simp only [with_messages]
    rw [lastN_of_length_le _ (ctx.messages ++ [Message.mk "user" s]) (by
      simp only [List.length_append, List.length_cons, List.length_nil]
      omega)]
    rw [lastN_of_length_le _ _ (by
      simp only [List.length_append, List.length_cons, List.length_nil]
      omega)]
    rw [List.append_assoc]
    rfl

/-- C1, witness: the amended turn invariant at the default capacity 10 with
an empty starting history. -/
theorem generate_reply_turn_invariant_witness :
    ∃ reply ctx2,
      generate_reply (ConversationContext.mk 10 [] [] []) (PyArg.str "hi") false
          (Except.ok "m") (Except.ok (AgentResponse.plain "ok")) = (Except.ok reply, ctx2) ∧
      (ctx2.messages.length : Int) =
        min (((ConversationContext.mk 10 [] [] []).messages.length : Int) + 2)
          (ConversationContext.mk 10 [] [] []).max_history ∧
      ctx2.messages.getLast? = some (Message.mk "assistant" reply) ∧
      (((ConversationContext.mk 10 [] [] []).messages.length : Int) + 2 ≤
          (ConversationContext.mk 10 [] [] []).max_history →
        ctx2.messages = (ConversationContext.mk 10 [] [] []).messages ++
          [Message.mk "user" "hi", Message.mk "assistant" reply]) :=
  generate_reply_turn_invariant (ConversationContext.mk 10 [] [] []) "hi"
    (Except.ok "m") (Except.ok (AgentResponse.plain "ok")) (by decide) (by decide)

/-- C2, divergence witness: when the retrieval stage raises, the code does
not propagate the exception and still enters the agent stage, but there the
unbound local `llama_reply` makes the attempt fail before the agent is
consulted, so the final reply is the fixed fallback string even though the
agent would have succeeded with the text `AGENT TEXT`. -/
theorem generate_reply_retrieval_failure_fallback_bug :
    generate_reply (ConversationContext.mk 10 [] [] []) (PyArg.str "hi") false
        (Except.error ()) (Except.ok (AgentResponse.plain "AGENT TEXT")) =
      (Except.ok fallback_reply,
       ConversationContext.mk 10
         [Message.mk "user" "hi", Message.mk "assistant" fallback_reply] [] []) ∧
    fallback_reply ≠ "AGENT TEXT" :=
  ⟨rfl, by decide⟩

/-- C3: for a capacity of at least 1 and a valid user message, when
retrieval succeeds and the agent stage raises, `generate_reply` returns the
fixed fallback string and records it verbatim as the last message of the
history, with role `assistant`. -/
theorem generate_reply_agent_failure_fallback (ctx : ConversationContext) (s r : String)
    (hmax : 1 ≤ ctx.max_history) (hs : pyStrip s ≠ "") :
    ∃ ctx2,
      generate_reply ctx (PyArg.str s) false (Except.ok r) (Except.error ()) =
        (Except.ok fallback_reply, ctx2) ∧
      ctx2.messages.getLast? = some (Message.mk "assistant" fallback_reply) := by
  have h := generate_reply_valid_eq ctx s (Except.ok r) (Except.error ()) hs hmax
  exact ⟨_, h, getLast?_lastN_concat _ (by omega) _ _⟩

/-- C3, witness at a concrete input. -/
theorem generate_reply_agent_failure_fallback_witness :
    ∃ ctx2,
      generate_reply (ConversationContext.mk 10 [] [] []) (PyArg.str "hi") false
          (Except.ok "movies") (Except.error ()) =
        (Except.ok fallback_reply, ctx2) ∧
      ctx2.messages.getLast? = some (Message.mk "assistant" fallback_reply) :=
  generate_reply_agent_failure_fallback (ConversationContext.mk 10 [] [] []) "hi" "movies"
    (by decide) (by decide)

/-- C4, counterexample: the constructor accepts `max_history = 0`, but after
one append the history has length 1, because the trim slice
`messages[-0:]` is the whole list; the claimed bound `len ≤ max_history`
fails for that accepted capacity. -/
theorem bounded_history_cex :
    _add_message (ConversationContext.mk 0 [] [] []) "user" "hi" =
      (Except.ok (), ConversationContext.mk 0 [Message.mk "user" "hi"] [] []) ∧
    ¬ ((1 : Int) ≤ 0) :=
  ⟨rfl, by decide⟩

/-- C4 (amended): for a capacity of at least 1, any sequence of valid-role
appends into a fresh context retains exactly the last `max_history` appended
messages in insertion order (all of them while they fit); in particular the
length never exceeds `max_history`, and equals `max_history` as soon as more
than `max_history` messages have been appended. -/
theorem bounded_history_lastN (maxH : Int) (ms : List Message)
    (hmax : 1 ≤ maxH) (hroles : ∀ m ∈ ms, valid_role m.role = true) :
    (append_messages (ConversationContext.mk maxH [] [] []) ms).messages =
      lastN maxH.toNat ms ∧
    ((append_messages (ConversationContext.mk maxH [] [] []) ms).messages.length : Int) ≤ maxH ∧
    (maxH < (ms.length : Int) →
      ((append_messages (ConversationContext.mk maxH [] [] []) ms).messages.length : Int) = maxH) := by
  have h := append_messages_eq ms (ConversationContext.mk maxH [] [] []) hmax hroles
    (by simp)
  have hmsg : (append_messages (ConversationContext.mk maxH [] [] []) ms).messages =
      lastN maxH.toNat ms := by
    rw [h]
    rfl
  refine ⟨hmsg, ?_, ?_⟩
  · rw [hmsg, length_lastN]
    push_cast
    omega
  · intro hlt
    rw [hmsg, length_lastN]
    push_cast
    omega

/-- C4, witness: three appends into a fresh context of capacity 2 keep the
last two messages. -/
theorem bounded_history_lastN_witness :
    (append_messages (ConversationContext.mk 2 [] [] [])
        [Message.mk "user" "a", Message.mk "user" "b", Message.mk "user" "c"]).messages =
      [Message.mk "user" "b", Message.mk "user" "c"] := by
  have h := bounded_history_lastN 2
    [Message.mk "user" "a", Message.mk "user" "b", Message.mk "user" "c"]
    (by decide) (by decide)
  rw [h.1]
  rfl

/-- C5: malformed caller input raises and never mutates state: a non-string
argument or a string empty after stripping makes `generate_reply` raise
`ValueError` with the context unchanged, and an invalid role makes
`_add_message` raise `ValueError` with the context unchanged. -/
theorem invalid_input_rejected_without_mutation :
    (∀ (ctx : ConversationContext) (test : Bool) (retr : Except Unit String)
        (agent : Except Unit AgentResponse),
      generate_reply ctx PyArg.nonStr test retr agent =
        (Except.error invalid_input_error, ctx)) ∧
    (∀ (ctx : ConversationContext) (s : String) (test : Bool) (retr : Except Unit String)
        (agent : Except Unit AgentResponse), pyStrip s = "" →
      generate_reply ctx (PyArg.str s) test retr agent =
        (Except.error invalid_input_error, ctx)) ∧
    (∀ (ctx : ConversationContext) (role content : String), valid_role role = false →
      _add_message ctx role content = (Except.error role_error, ctx)) := by
  refine ⟨fun ctx test retr agent => rfl,
    fun ctx s test retr agent hs => ?_,
    fun ctx role content hr => ?_⟩
  · rw [generate_reply, if_pos (beq_iff_eq.mpr hs)]
  · rw [_add_message, if_neg (by rw [hr]; exact Bool.false_ne_true)]

/-- C5, witness: a whitespace-only message and an invalid role at concrete
inputs. -/
theorem invalid_input_rejected_without_mutation_witness :
    generate_reply (ConversationContext.mk 10 [] [] []) (PyArg.str "   ") false
        (Except.ok "m") (Except.ok (AgentResponse.plain "ok")) =
      (Except.error invalid_input_error, ConversationContext.mk 10 [] [] []) ∧
    _add_message (ConversationContext.mk 10 [] [] []) "bot" "x" =
      (Except.error role_error, ConversationContext.mk 10 [] [] []) :=
  ⟨invalid_input_rejected_without_mutation.2.1 _ "   " _ _ _ (by decide),
   invalid_input_rejected_without_mutation.2.2 _ "bot" "x" (by decide)⟩

/-- C8, counterexample: a present-but-unparsable favourites file does not
make the delete path report the id as not found in favourites; the read
error is caught and returned as an error message instead. -/
theorem delete_favourite_corrupt_cex :
    delete_favourite_run FavFile.corrupt (some 42) "matrix" "Expecting value" =
      ("Error deleting favourite 42: Expecting value", FavFile.corrupt) ∧
    "Error deleting favourite 42: Expecting value" ≠
      "Movie ID 42 not found in favourites." :=
  ⟨rfl, by decide⟩

/-- C8 (amended): an absent or unparsable file is treated as an empty list
by the add path (`save_favourites`), and an absent file is treated as an
empty list by the delete path, which then reports the id as not found in
favourites; a present-but-unparsable file, however, makes the delete path
return an `Error deleting favourite` message (caught, not raised), leaving
the file untouched in both delete cases. -/
theorem favourites_file_recovery (favs : List Int) (k : Int) (name jerr : String)
    (hk : k ≠ 0) :
    save_favourites FavFile.absent favs = save_favourites (FavFile.stored []) favs ∧
    save_favourites FavFile.corrupt favs = save_favourites (FavFile.stored []) favs ∧
    delete_favourite_run FavFile.absent (some k) name jerr =
      ("Movie ID " ++ toString k ++ " not found in favourites.", FavFile.absent) ∧
    delete_favourite_run FavFile.corrupt (some k) name jerr =
      ("Error deleting favourite " ++ toString k ++ ": " ++ jerr, FavFile.corrupt) := by
  have hfalsy : ¬ (falsy_id (some k) = true) := by
    simp only [falsy_id, beq_iff_eq]
    exact hk
  refine ⟨rfl, rfl, ?_, ?_⟩
  · rw [delete_favourite_run, if_neg hfalsy]
    rfl
  · rw [delete_favourite_run, if_neg hfalsy]
    rfl

/-- C8, witness at concrete inputs. -/
theorem favourites_file_recovery_witness :
    save_favourites FavFile.absent [7, 3] = save_favourites (FavFile.stored []) [7, 3] ∧
    save_favourites FavFile.corrupt [7, 3] = save_favourites (FavFile.stored []) [7, 3] ∧
    delete_favourite_run FavFile.absent (some 42) "matrix" "Expecting value" =
      ("Movie ID " ++ toString (42 : Int) ++ " not found in favourites.", FavFile.absent) ∧
    delete_favourite_run FavFile.corrupt (some 42) "matrix" "Expecting value" =
      ("Error deleting favourite " ++ toString (42 : Int) ++ ": " ++ "Expecting value",
       FavFile.corrupt) :=
  favourites_file_recovery [7, 3] 42 "matrix" "Expecting value" (by decide)

/-- C9, counterexample: `get_recent` called with `n = 0` on a one-message
buffer returns the whole buffer (the slice `messages[-0:]` is the whole
list), not the last zero messages. -/
theorem get_recent_zero_cex :
    get_recent (ConversationContext.mk 10 [Message.mk "user" "hi"] [] []) (some 0) =
      [Message.mk "user" "hi"] ∧
    [Message.mk "user" "hi"] ≠ ([] : List Message) :=
  ⟨rfl, by decide⟩

/-- C9 (amended): `get_recent` returns all messages when `n` is `None` or
`n ≥` the current length, and the last `n` messages in chronological order
for every `n ≥ 1`; it never mutates the buffer (the embedding is a pure
function of the state).  For `n = 0` the Python slice `messages[-0:]`
returns the whole buffer instead of the empty list. -/
theorem get_recent_semantics :
    (∀ ctx : ConversationContext, get_recent ctx none = ctx.messages) ∧
    (∀ (ctx : ConversationContext) (n : Int), 1 ≤ n →
      get_recent ctx (some n) = lastN n.toNat ctx.messages) ∧
    (∀ (ctx : ConversationContext) (n : Int), (ctx.messages.length : Int) ≤ n →
      get_recent ctx (some n) = ctx.messages) := by
  refine ⟨fun ctx => rfl, fun ctx n hn => ?_, fun ctx n hn => ?_⟩
  · rw [get_recent]
    by_cases hge : n ≥ (ctx.messages.length : Int)
    · rw [if_pos hge, lastN_of_length_le]
      omega
    · rw [if_neg hge]
      simp only [pySliceFrom, if_pos (show -n < 0 by omega), neg_neg, lastN]
  · rw [get_recent, if_pos (by omega)]

/-- C9, witness: the last two of three messages. -/
theorem get_recent_semantics_witness :
    get_recent (ConversationContext.mk 10
        [Message.mk "user" "a", Message.mk "user" "b", Message.mk "user" "c"] [] [])
      (some 2) = [Message.mk "user" "b", Message.mk "user" "c"] := by
  have h := get_recent_semantics.2.1 (ConversationContext.mk 10
    [Message.mk "user" "a", Message.mk "user" "b", Message.mk "user" "c"] [] []) 2
    (by decide)
  rw [h]
  rfl

/-- C10: a `generate_reply` call — success, stage failure or validation
failure, test branch or not — changes only the message history: the
entities map, the retrieval audit log and the capacity are all unchanged. -/
theorem generate_reply_frame (ctx : ConversationContext) (arg : PyArg) (test : Bool)
    (retr : Except Unit String) (agent : Except Unit AgentResponse) :
    (generate_reply ctx arg test retr agent).2.movies = ctx.movies ∧
    (generate_reply ctx arg test retr agent).2.chromadb_results = ctx.chromadb_results ∧
    (generate_reply ctx arg test retr agent).2.max_history = ctx.max_history := by
  cases arg with
  | nonStr => exact ⟨rfl, rfl, rfl⟩
  | str s =>
    rw [generate_reply]
    by_cases hs : (pyStrip s == "") = true
    · rw [if_pos hs]
      exact ⟨rfl, rfl, rfl⟩
    · rw [if_neg hs]
      refine propagate_preserves _ _
        (fun c => c.movies = ctx.movies ∧ c.chromadb_results = ctx.chromadb_results ∧
          c.max_history = ctx.max_history)
        (add_message_frame ctx "user" s) ?_
      intro c1 h1
      by_cases ht : test = true
      · rw [if_pos ht]
        refine propagate_preserves _ _
          (fun c => c.movies = ctx.movies ∧ c.chromadb_results = ctx.chromadb_results ∧
            c.max_history = ctx.max_history) ?_ ?_
        · have h2 := add_message_frame c1 "assistant" (chromadb_reply retr)
          exact ⟨h2.1.trans h1.1, h2.2.1.trans h1.2.1, h2.2.2.trans h1.2.2⟩
        · intro c2 h2
          exact h2
      · rw [if_neg ht]
        refine propagate_preserves _ _
          (fun c => c.movies = ctx.movies ∧ c.chromadb_results = ctx.chromadb_results ∧
            c.max_history = ctx.max_history) ?_ ?_
        · have h2 := add_message_frame c1 "assistant" (pipeline_reply retr agent)
          exact ⟨h2.1.trans h1.1, h2.2.1.trans h1.2.1, h2.2.2.trans h1.2.2⟩
        · intro c2 h2
          exact h2

/-- C6: `get_favorite_movies` follows the three-tier resolution: when
flagged entries exist, it returns the comma-joined truthy titles of exactly
those entries (the sentinel message when every flagged entry lacks a title),
ignoring `favorite_movies` list fields entirely; otherwise, when the
concatenated `favorite_movies` lists are non-empty, it returns their
comma-join; otherwise the sentinel string. -/
theorem get_favorite_movies_three_tier (ctx : ConversationContext) :
    (flagged_favorites ctx ≠ [] → flagged_titles ctx ≠ [] →
      get_favorite_movies ctx = String.intercalate ", " (flagged_titles ctx)) ∧
    (flagged_favorites ctx ≠ [] → flagged_titles ctx = [] →
      get_favorite_movies ctx = "No favorite movies stored.") ∧
    (flagged_favorites ctx = [] → listed_favorites ctx ≠ [] →
      get_favorite_movies ctx = String.intercalate ", " (listed_favorites ctx)) ∧
    (flagged_favorites ctx = [] → listed_favorites ctx = [] →
      get_favorite_movies ctx = "No favorite movies stored.") ∧
    (flagged_favorites ctx ≠ [] →
      get_favorite_movies ctx = get_favorite_movies (scrub_favorite_lists ctx)) := by
  refine ⟨?_, ?_, ?_, ?_, ?_⟩
  · intro h1 h2
    rw [get_favorite_movies_tier1 ctx h1, if_neg h2]
  · intro h1 h2
    rw [get_favorite_movies_tier1 ctx h1, if_pos h2]
  · intro h1 h2
    rw [get_favorite_movies_tier2 ctx h1, if_neg h2]
  · intro h1 h2
    rw [get_favorite_movies_tier2 ctx h1, if_pos h2]
  · intro h1
    have h1s : flagged_favorites (scrub_favorite_lists ctx) ≠ [] := by
      rw [flagged_favorites_scrub]
      simpa using h1
    rw [get_favorite_movies_tier1 ctx h1, get_favorite_movies_tier1 _ h1s,
      flagged_titles_scrub]

/-- C6, witness: the spec scenario — entry `a` flagged with title `A`,
entry `b` unflagged with title `B` and a `favorite_movies` list `[C]` —
yields the summary `A`. -/
theorem get_favorite_movies_three_tier_witness :
    get_favorite_movies (ConversationContext.mk 10 []
        [("a", MovieMeta.mk (some true) (some "A") none),
         ("b", MovieMeta.mk none (some "B") (some ["C"]))] []) = "A" := by
  have h := (get_favorite_movies_three_tier (ConversationContext.mk 10 []
    [("a", MovieMeta.mk (some true) (some "A") none),
     ("b", MovieMeta.mk none (some "B") (some ["C"]))] [])).1 (by decide) (by decide)
  rw [h]
  rfl

/-- C7, counterexample: a last message whose content field is present but
not a plain text payload does not fall back to the string form of that
message, as the claim states.  With content `None` the code returns the
string form of the entire response instead; with a non-text content (for
example a list of content blocks) the extraction raises `AttributeError`
and no reply text is produced at all. -/
theorem chat_with_agent_extraction_cex :
    extract_agent_reply (AgentResponse.withMessages
        [AgentMsg.mk (some PyContent.pynone) "MSG FORM"] "RESPONSE FORM") =
      Except.ok "RESPONSE FORM" ∧
    "RESPONSE FORM" ≠ "MSG FORM" ∧
    extract_agent_reply (AgentResponse.withMessages
        [AgentMsg.mk (some PyContent.nonText) "MSG FORM"] "RESPONSE FORM") =
      Except.error () :=
  ⟨rfl, by decide, rfl⟩

/-- C7 (amended): the reply extraction of `_chat_with_agent` agrees with the
amended extraction rule for every agent response value: plain strings are
stripped; a non-empty `messages` sequence yields the last message content
stripped when it is text, the string form of the whole message stripped when
the content field is absent, and the string form of the entire response
stripped when the field is present but `None`; a present non-text content
makes the extraction raise (the agent stage then fails, no text is
extracted); an empty `messages` sequence yields the string form of the whole
response stripped; any other value yields its string form unstripped. -/
theorem chat_with_agent_extraction_matches_spec (r : AgentResponse) :
    extract_agent_reply r = extract_agent_reply_spec r := by
  cases r with
  | plain s => rfl
  | other s => rfl
  | withMessages msgs strForm =>
    simp only [extract_agent_reply, extract_agent_reply_spec]
    cases hlast : msgs.getLast? with
    | none => simp [hlast]
    | some m =>
      cases hc : m.content with
      | none => simp [hlast, hc]
      | some pc =>
        cases pc with
        | text c => simp [hlast, hc]
        | pynone => simp [hlast, hc]
        | nonText => simp [hlast, hc]

end Cinetech
